import Mathlib

/-!
Verification of the scm-choco-tracker backend (src/backend/app.py), a Flask
service over a PostgreSQL `products` table. The handlers are embedded as pure
Lean functions over an explicit database state; database effects (opening and
closing the per-request connection, executing statements, commit, rollback)
are recorded in an event trace so that ordering and resource-release
properties can be stated. Fallible external operations (connecting, SELECT,
INSERT) are driven by explicit fault parameters.
-/

/-- A Python value as it occurs in the request bodies handled by app.py.
`truthy` mirrors Python truthiness as used by `all([...])`. -/
inductive PyVal where
  | none
  | str (s : String)
  | int (i : Int)
  | bool (b : Bool)
  deriving Repr, DecidableEq

/-- Python truthiness: None is falsy, a string is truthy iff non-empty,
an int iff non-zero, a bool iff True. -/
def PyVal.truthy : PyVal → Bool
  | PyVal.none => false
  | PyVal.str s => !(s == "")
  | PyVal.int i => !(i == 0)
  | PyVal.bool b => b

/-- A JSON value, as produced by Flask `jsonify`. -/
inductive JVal where
  | jnull
  | jbool (b : Bool)
  | jint (i : Int)
  | jstr (s : String)
  | jarr (xs : List JVal)
  | jobj (fields : List (String × JVal))
  deriving Repr

/-- Embedding of a PyVal into the JSON it serialises to. -/
def PyVal.toJ : PyVal → JVal
  | PyVal.none => JVal.jnull
  | PyVal.str s => JVal.jstr s
  | PyVal.int i => JVal.jint i
  | PyVal.bool b => JVal.jbool b

/-- An HTTP response: status code and JSON body, as returned by
`return jsonify(...), status` in app.py. -/
structure Response where
  status : Nat
  body : JVal
  deriving Repr

/-- A row of the `products` table. `SELECT * FROM products` returns the
columns in table order, so in get_products `product[0]` is product_id,
`product[1]` is name, `product[2]` is description, `product[3]` is
manufacturer_id and `product[4]` is batch_number; the fields below are in
that positional order. -/
structure Row where
  product_id : Int
  name : PyVal
  description : PyVal
  manufacturer_id : PyVal
  batch_number : PyVal
  deriving Repr, DecidableEq

/-- The state of the external `products` table: its rows, and the next
value of the database-generated serial primary key (PostgreSQL serial
columns start at 1, so 0 < nextId holds for a freshly created table). -/
structure DB where
  rows : List Row
  nextId : Int
  deriving Repr, DecidableEq

/-- Database-effect events a request performs, in order. `connOpen true`
is a successful `psycopg2.connect`, `connOpen false` a failed attempt. -/
inductive DBEvent where
  | connOpen (ok : Bool)
  | execSelect
  | execInsert
  | commit
  | rollback
  | cursorClose
  | connClose
  deriving Repr, DecidableEq, BEq

/-- Every successfully opened connection in the trace was closed. At most
one connection is opened per request, so counting suffices. -/
def opensClosed (t : List DBEvent) : Bool :=
  t.count (DBEvent.connOpen true) == t.count DBEvent.connClose

/-- An opaque handle standing for a live psycopg2 connection. -/
structure Conn where

/-- get_db_connection (app.py lines 17-29): try to connect; on success
return the connection, on psycopg2.Error print and return None. The
fault parameter `connFail` says whether the connect attempt errors. -/
def get_db_connection (connFail : Bool) : Option Conn :=
  if connFail then Option.none else some ⟨⟩

/-- The result of running a handler: a returned response, or an unhandled
Python exception escaping the handler (which Flask turns into a generic
500 Internal Server Error page, not the handler's own JSON). -/
inductive HandlerResult where
  | ok (resp : Response)
  | crash (msg : String)
  deriving Repr

/-- Outcome of one create_product request: handler result, resulting
database state, and the trace of database effects performed. -/
structure CreateOut where
  result : HandlerResult
  db : DB
  trace : List DBEvent
  deriving Repr

/-- health_check (app.py lines 31-34): returns jsonify status OK with 200
and performs no database effects. -/
def health_check : Response × List DBEvent :=
  (⟨200, JVal.jobj [("status", JVal.jstr "OK")]⟩, [])

/-- The dictionary produced for one row in get_products (app.py lines
48-55): the row columns 0 through 4 mapped positionally to the five
named fields. -/
def productToDict (p : Row) : JVal :=
  JVal.jobj [("product_id", JVal.jint p.product_id),
             ("name", p.name.toJ),
             ("description", p.description.toJ),
             ("manufacturer_id", p.manufacturer_id.toJ),
             ("batch_number", p.batch_number.toJ)]

/-- get_products (app.py lines 36-62). `connFail` drives get_db_connection;
`selectErr` is the description of the exception raised by the SELECT, or
none if it succeeds. The cursor and connection are closed in a `finally`
block, hence on both the success and the query-error paths. -/
def get_products (db : DB) (connFail : Bool) (selectErr : Option String) :
    Response × List DBEvent :=
  match get_db_connection connFail with
  | Option.none =>
      (⟨500, JVal.jobj [("error", JVal.jstr "Failed to connect to database")]⟩,
       [DBEvent.connOpen false])
  | some _ =>
      match selectErr with
      | some e =>
          (⟨500, JVal.jobj [("error", JVal.jstr ("Error fetching products: " ++ e))]⟩,
           [DBEvent.connOpen true, DBEvent.execSelect,
            DBEvent.cursorClose, DBEvent.connClose])
      | Option.none =>
          let products_list := db.rows.map productToDict
          (⟨200, JVal.jobj [("products", JVal.jarr products_list)]⟩,
           [DBEvent.connOpen true, DBEvent.execSelect,
            DBEvent.cursorClose, DBEvent.connClose])

/-- Python `data.get(key)` on a dict: the value if the key is present,
None otherwise. -/
def dictGet (data : List (String × PyVal)) (k : String) : PyVal :=
  match data.find? (fun p => p.1 == k) with
  | some p => p.2
  | Option.none => PyVal.none

/-- The validation check of create_product (app.py line 77):
`all([name, description, manufacturer_id, batch_number])` over the four
values fetched with `data.get`. -/
def requiredPresent (data : List (String × PyVal)) : Bool :=
  (dictGet data "name").truthy && (dictGet data "description").truthy &&
  (dictGet data "manufacturer_id").truthy && (dictGet data "batch_number").truthy

/-- create_product (app.py lines 64-99), faithful to the source order:
the connection is acquired FIRST (line 66); only then is the JSON body
read and validated. `body` is the result of `request.get_json()`: some
dict when the body parsed to a JSON object, none when it did not (JSON
null, empty body, or non-JSON content), in which case `data.get('name')`
raises AttributeError on None and the exception escapes the handler with
the connection still open. On the validation-failure path the handler
returns 400 directly, before the try/finally that closes the connection,
so the open connection is not closed there either. `insertErr` is the
description of the exception raised by the INSERT, or none on success;
on success the database generates product_id = db.nextId via
RETURNING product_id and the transaction is committed. -/
def create_product (db : DB) (connFail : Bool)
    (body : Option (List (String × PyVal))) (insertErr : Option String) :
    CreateOut :=
  match get_db_connection connFail with
  | Option.none =>
      ⟨HandlerResult.ok ⟨500, JVal.jobj [("error", JVal.jstr "Failed to connect to database")]⟩,
       db, [DBEvent.connOpen false]⟩
  | some _ =>
      match body with
      | Option.none =>
          ⟨HandlerResult.crash "AttributeError: NoneType object has no attribute get",
           db, [DBEvent.connOpen true]⟩
      | some data =>
          if requiredPresent data = false then
            ⟨HandlerResult.ok ⟨400, JVal.jobj [("error", JVal.jstr "Missing required fields")]⟩,
             db, [DBEvent.connOpen true]⟩
          else
            match insertErr with
            | some e =>
                ⟨HandlerResult.ok ⟨500, JVal.jobj
                    [("error", JVal.jstr ("Error creating product: " ++ e))]⟩,
                 db,
                 [DBEvent.connOpen true, DBEvent.execInsert, DBEvent.rollback,
                  DBEvent.cursorClose, DBEvent.connClose]⟩
            | Option.none =>
                let product_id := db.nextId
                let newRow : Row :=
                  ⟨product_id, dictGet data "name", dictGet data "description",
                   dictGet data "manufacturer_id", dictGet data "batch_number"⟩
                ⟨HandlerResult.ok ⟨201, JVal.jobj
                    [("message", JVal.jstr "Product created successfully"),
                     ("product_id", JVal.jint product_id)]⟩,
                 ⟨db.rows ++ [newRow], db.nextId + 1⟩,
                 [DBEvent.connOpen true, DBEvent.execInsert, DBEvent.commit,
                  DBEvent.cursorClose, DBEvent.connClose]⟩

/-- The process environment as far as app.py reads it: the values of the
four DB_* variables, none when unset. -/
structure Env where
  db_host : Option String
  db_name : Option String
  db_user : Option String
  db_password : Option String
  deriving Repr, DecidableEq

/-- The loaded connection configuration. -/
structure Config where
  host : String
  database : String
  user : String
  password : String
  deriving Repr, DecidableEq

/-- Truthiness of an os.environ.get result: None and the empty string are
falsy. -/
def envTruthy : Option String → Bool
  | Option.none => false
  | some s => !(s == "")

/-- Module-level configuration of app.py (lines 8-14): read DB_HOST,
DB_NAME (defaulting to chocolate_db), DB_USER, DB_PASSWORD; if
`not all([DB_HOST, DB_USER, DB_PASSWORD])`, raise ValueError, aborting
startup before any request is served. -/
def loadConfig (env : Env) : Except String Config :=
  let dbHost := env.db_host
  let dbName := env.db_name.getD "chocolate_db"
  let dbUser := env.db_user
  let dbPassword := env.db_password
  if !(envTruthy dbHost && envTruthy dbUser && envTruthy dbPassword) then
    Except.error "Missing database connection details in environment variables."
  else
    Except.ok ⟨dbHost.getD "", dbName, dbUser.getD "", dbPassword.getD ""⟩

/-- The spec scenario body: POST name Milk with the other fields absent. -/
def milkBody : List (String × PyVal) := [("name", PyVal.str "Milk")]

/-- The spec scenario body: a fully populated valid create request. -/
def darkBody : List (String × PyVal) :=
  [("name", PyVal.str "Dark 85%"), ("description", PyVal.str "Single origin"),
   ("manufacturer_id", PyVal.int 3), ("batch_number", PyVal.str "B-2024-01")]

/-- An empty products table with the serial key at its initial value. -/
def db0 : DB := ⟨[], 1⟩

/-- Claim C1, counterexample: there is a create request missing required
fields for which the handler does produce the 400 response, yet a database
connection was opened before it: create_product acquires the connection at
line 66, before even reading the body. -/
theorem claim1_counterexample :
    (create_product db0 false (some milkBody) Option.none).result =
      HandlerResult.ok ⟨400, JVal.jobj [("error", JVal.jstr "Missing required fields")]⟩ ∧
    (create_product db0 false (some milkBody) Option.none).trace =
      [DBEvent.connOpen true] := by
  exact ⟨rfl, rfl⟩

/-- Claim C1, amended: for every create request whose body is an object
failing the required-field validation (connection available), the handler
responds 400 Missing required fields before executing any SQL statement —
the trace holds exactly one event, the successful connection open, so no
statement, commit or rollback precedes the 400 — but a database connection
IS opened first, and the database state is unchanged. -/
theorem create_validation_no_sql (db : DB) (data : List (String × PyVal))
    (insertErr : Option String) (h : requiredPresent data = false) :
    (create_product db false (some data) insertErr).result =
      HandlerResult.ok ⟨400, JVal.jobj [("error", JVal.jstr "Missing required fields")]⟩ ∧
    (create_product db false (some data) insertErr).trace = [DBEvent.connOpen true] ∧
    (create_product db false (some data) insertErr).db = db := by
  simp [create_product, get_db_connection, h]

/-- Witness for create_validation_no_sql at the spec scenario body
containing only the name field. -/
theorem create_validation_no_sql_witness :
    requiredPresent milkBody = false ∧
    (create_product db0 false (some milkBody) Option.none).trace =
      [DBEvent.connOpen true] :=
  ⟨rfl, (create_validation_no_sql db0 milkBody Option.none rfl).2.1⟩

/-- Claim C2: on create_product's validation-failure exit path the request's
successfully opened connection is never closed — the trace records the open
and no close — contradicting release-on-every-exit-path. The try/finally
that closes the connection begins only after the validation check, and the
400 return precedes it. -/
theorem create_validation_leaks_connection :
    (create_product db0 false (some milkBody) Option.none).trace =
      [DBEvent.connOpen true] ∧
    opensClosed (create_product db0 false (some milkBody) Option.none).trace = false := by
  exact ⟨rfl, rfl⟩

/-- Claim C3: for any create request whose body is an object with a missing
or non-truthy required field, the response is 400 with error Missing
required fields, the database is unchanged, and no INSERT is executed. -/
theorem create_missing_fields_400 (db : DB) (data : List (String × PyVal))
    (insertErr : Option String) (h : requiredPresent data = false) :
    (create_product db false (some data) insertErr).result =
      HandlerResult.ok ⟨400, JVal.jobj [("error", JVal.jstr "Missing required fields")]⟩ ∧
    (create_product db false (some data) insertErr).db = db ∧
    DBEvent.execInsert ∉ (create_product db false (some data) insertErr).trace := by
  refine ⟨?_, ?_, ?_⟩ <;> simp [create_product, get_db_connection, h]

/-- Witness for create_missing_fields_400 at the name-only body. -/
theorem create_missing_fields_400_witness :
    requiredPresent milkBody = false ∧
    (create_product db0 false (some milkBody) Option.none).db = db0 :=
  ⟨rfl, (create_missing_fields_400 db0 milkBody Option.none rfl).2.1⟩

/-- Claim C4: for a create request with all four fields present and truthy,
connection acquired and insert succeeding, the handler commits and responds
201 with the confirmation message and the database-generated product_id;
that id is positive (the serial key stays positive), and a subsequent
successful list request returns 200 whose products array contains the
record with that id and the submitted field values. -/
theorem create_success_spec (db : DB) (data : List (String × PyVal))
    (h : requiredPresent data = true) (hpos : 0 < db.nextId) :
    (create_product db false (some data) Option.none).result =
      HandlerResult.ok ⟨201, JVal.jobj
        [("message", JVal.jstr "Product created successfully"),
         ("product_id", JVal.jint db.nextId)]⟩ ∧
    0 < db.nextId ∧
    DBEvent.commit ∈ (create_product db false (some data) Option.none).trace ∧
    (get_products (create_product db false (some data) Option.none).db false Option.none).1 =
      ⟨200, JVal.jobj [("products", JVal.jarr
        ((create_product db false (some data) Option.none).db.rows.map productToDict))]⟩ ∧
    productToDict ⟨db.nextId, dictGet data "name", dictGet data "description",
                   dictGet data "manufacturer_id", dictGet data "batch_number"⟩ ∈
      (create_product db false (some data) Option.none).db.rows.map productToDict := by
  refine ⟨?_, hpos, ?_, ?_, ?_⟩ <;>
    simp [create_product, get_db_connection, get_products, h, List.mem_map]

/-- Witness for create_success_spec at the spec scenario Dark 85% body on
an empty table. -/
theorem create_success_spec_witness :
    requiredPresent darkBody = true ∧ 0 < db0.nextId ∧
    (create_product db0 false (some darkBody) Option.none).result =
      HandlerResult.ok ⟨201, JVal.jobj
        [("message", JVal.jstr "Product created successfully"),
         ("product_id", JVal.jint db0.nextId)]⟩ :=
  ⟨rfl, by decide, (create_success_spec db0 darkBody rfl (by decide)).1⟩

/-- Claim C5: for every list request with the connection acquired and the
SELECT succeeding, the response is 200 with a products field holding one
positionally mapped record per row, in the database's order, and the number
of records equals the number of rows in the table. -/
theorem list_success_spec (db : DB) :
    get_products db false Option.none =
      (⟨200, JVal.jobj [("products", JVal.jarr (db.rows.map productToDict))]⟩,
       [DBEvent.connOpen true, DBEvent.execSelect,
        DBEvent.cursorClose, DBEvent.connClose]) ∧
    (db.rows.map productToDict).length = db.rows.length := by
  exact ⟨rfl, by simp⟩

/-- Claim C6: for every create request whose INSERT raises, the handler
rolls back (rollback in trace, commit absent), leaves the database state
unchanged, and responds 500 with the error description. -/
theorem create_insert_error_spec (db : DB) (data : List (String × PyVal)) (e : String)
    (h : requiredPresent data = true) :
    (create_product db false (some data) (some e)).result =
      HandlerResult.ok ⟨500, JVal.jobj
        [("error", JVal.jstr ("Error creating product: " ++ e))]⟩ ∧
    (create_product db false (some data) (some e)).db = db ∧
    (create_product db false (some data) (some e)).trace =
      [DBEvent.connOpen true, DBEvent.execInsert, DBEvent.rollback,
       DBEvent.cursorClose, DBEvent.connClose] := by
  simp [create_product, get_db_connection, h]

/-- Witness for create_insert_error_spec at the Dark 85% body with a
duplicate-key execution error. -/
theorem create_insert_error_spec_witness :
    requiredPresent darkBody = true ∧
    (create_product db0 false (some darkBody) (some "duplicate key")).db = db0 :=
  ⟨rfl, (create_insert_error_spec db0 darkBody "duplicate key" rfl).2.1⟩

/-- Claim C7: when opening a connection fails, get_db_connection returns
the None sentinel rather than raising, and both handlers translate it into
a 500 response with an error field; create_product returns normally (no
crash) and the database is untouched. -/
theorem connection_failure_spec (db : DB) (body : Option (List (String × PyVal)))
    (selectErr insertErr : Option String) :
    get_db_connection true = Option.none ∧
    (get_products db true selectErr).1 =
      ⟨500, JVal.jobj [("error", JVal.jstr "Failed to connect to database")]⟩ ∧
    (create_product db true body insertErr).result =
      HandlerResult.ok ⟨500, JVal.jobj
        [("error", JVal.jstr "Failed to connect to database")]⟩ ∧
    (create_product db true body insertErr).db = db := by
  exact ⟨rfl, rfl, rfl, rfl⟩

/-- Claim C8: the health check returns 200 with body status OK and performs
no database effects, unconditionally. -/
theorem health_check_spec :
    health_check = (⟨200, JVal.jobj [("status", JVal.jstr "OK")]⟩, ([] : List DBEvent)) :=
  rfl

/-- Claim C9: the configuration loader aborts startup with the fatal
configuration error whenever DB_HOST, DB_USER or DB_PASSWORD is absent,
and whenever it succeeds the database name is DB_NAME with default
chocolate_db when unset. -/
theorem config_loader_spec (env : Env) :
    ((env.db_host = Option.none ∨ env.db_user = Option.none ∨
        env.db_password = Option.none) →
      loadConfig env =
        Except.error "Missing database connection details in environment variables.") ∧
    (∀ cfg : Config, loadConfig env = Except.ok cfg →
      cfg.database = env.db_name.getD "chocolate_db") := by
  constructor
  · intro h
    rcases h with h | h | h <;> simp [loadConfig, h, envTruthy]
  · intro cfg hcfg
    simp only [loadConfig] at hcfg
    split at hcfg
    · exact absurd hcfg (by simp)
    · cases hcfg
      rfl

/-- Witness for config_loader_spec at an environment with DB_HOST unset. -/
theorem config_loader_spec_witness :
    loadConfig ⟨Option.none, Option.none, some "u", some "p"⟩ =
      Except.error "Missing database connection details in environment variables." :=
  (config_loader_spec ⟨Option.none, Option.none, some "u", some "p"⟩).1 (Or.inl rfl)

/-- Claim C10: when the parsed request body is not an object, create_product
crashes with the AttributeError from calling get on None instead of
returning the documented 400, and the already-opened connection is not
closed on that path; the database is untouched. -/
theorem create_nonobject_body_crash (db : DB) (insertErr : Option String) :
    (create_product db false Option.none insertErr).result =
      HandlerResult.crash "AttributeError: NoneType object has no attribute get" ∧
    (create_product db false Option.none insertErr).trace = [DBEvent.connOpen true] ∧
    opensClosed (create_product db false Option.none insertErr).trace = false ∧
    (create_product db false Option.none insertErr).db = db := by
  exact ⟨rfl, rfl, rfl, rfl⟩
